import Mathlib

/-!
# Bloopair USB pairing menu (`pair_menu.cpp`)

A shallow embedding of `ds3ReadBDA`, `ds3WriteMasterBDA`, `hidAttachCallback`
and `handle_pairing_menu`.  Calls into the platform (nsyshid, vpad, padscore,
whb, the btrm IPC client) are recorded in a trace; what those calls answer is
supplied by an environment record.  Bytes and bit masks are natural numbers,
statuses and handles are integers.
-/

namespace PairMenu

/-! ## Constants of the source -/

def DS3_VID : Nat := 0x054c

def DS3_PID : Nat := 0x0268

def HID_REPORT_FEATURE : Nat := 3

/-- The enumeration `HIDAttachEvent` of `nsyshid/hid.h`; the callback's `int32_t`
result carries one of its enumerators. -/
inductive HIDAttachEvent
  | HID_DEVICE_DETACH
  | HID_DEVICE_ATTACH
  deriving DecidableEq, Repr

open HIDAttachEvent

/-- The fields of `HIDDevice` the source reads. `vid` and `pid` are the 16-bit
values as stored in the structure, before `__builtin_bswap16`. -/
structure HIDDevice where
  handle : Nat
  vid : Nat
  pid : Nat
  deriving DecidableEq, Repr

/-- The field of `VPADStatus` the source reads. -/
structure VPADStatus where
  hold : Nat
  deriving DecidableEq, Repr

/-- The fields of `KPADStatus` the source reads; `proHold` is `pro.hold`. -/
structure KPADStatus where
  hold : Nat
  extensionType : Nat
  proHold : Nat
  deriving DecidableEq, Repr

/-- Button masks, extension tags and the channel constant that `vpad/input.h` and
`padscore/wpad.h` define. The headers are not part of the source file, so the
values are a parameter of the model. -/
structure PadConsts where
  VPAD_CHAN_0 : Nat
  VPAD_BUTTON_A : Nat
  VPAD_BUTTON_B : Nat
  WPAD_BUTTON_A : Nat
  WPAD_BUTTON_B : Nat
  WPAD_PRO_BUTTON_A : Nat
  WPAD_PRO_BUTTON_B : Nat
  WPAD_EXT_CLASSIC : Nat
  WPAD_EXT_PRO_CONTROLLER : Nat
  WPAD_EXT_MPLUS_CLASSIC : Nat
  deriving DecidableEq, Repr

/-! ## Trace of platform calls -/

/-- One call into the platform, with the arguments the source passes. The two
input reads also record the status structure the call filled in. -/
inductive Ev
  | HIDGetReport (handle reportType reportId len : Nat)
  | HIDSetReport (handle reportType reportId : Nat) (buf : List Nat) (len : Nat)
  | addControllerPairing (handle : Int) (bda link_key : List Nat) (name : String)
      (vid pid : Nat)
  | WHBLogPrintf (fmt : String) (args : List Int)
  | WHBLogConsoleDraw
  | WHBLogConsoleInit
  | WHBLogConsoleSetColor (color : Nat)
  | WHBLogConsoleFree
  | OSDynLoad_Acquire (name : String)
  | OSDynLoad_FindExport (name : String)
  | VPADInit
  | KPADInit
  | WPADEnableURCC (enable : Nat)
  | VPADRead (chan : Nat) (status : VPADStatus)
  | KPADRead (chan : Nat) (status : KPADStatus)
  | VPADShutdown
  | KPADShutdown
  | openBtrm
  | readControllerBDAddr (handle : Int)
  | closeBtrm (handle : Int)
  | HIDSetup
  | HIDAddClient
  | HIDDelClient
  | HIDTeardown
  | sleep (seconds : Nat)
  deriving DecidableEq, Repr

/-- What the platform answers. A function that the source calls at most once per
run answers from its arguments; the two input reads answer from the number of
input reads made before (`polls`), which scripts the sample sequence. The
result type of `addControllerPairing` comes from `ipc.hpp`, which is not in the
source file; it is taken as an integer status. -/
structure Env where
  HIDGetReport : (handle reportType reportId len : Nat) → Int × List Nat
  HIDSetReport : (handle reportType reportId : Nat) → (buf : List Nat) → (len : Nat) → Int
  addControllerPairing : (handle : Int) → (bda link_key : List Nat) → (name : String) →
    (vid pid : Nat) → Int
  VPADRead : (polls chan : Nat) → VPADStatus
  KPADRead : (polls chan : Nat) → KPADStatus
  openBtrm : Int
  readControllerBDAddr : (handle : Int) → Int × List Nat
  HIDSetup : Int
  HIDAddClient : Int

/-- The file-scope variables `controller_bda` and `btrmHandle`, the number of
input reads made so far and the trace of platform calls. -/
structure State where
  controller_bda : List Nat
  btrmHandle : Int
  polls : Nat
  trace : List Ev
  deriving DecidableEq, Repr

/-- State at program start: `controller_bda[6]{}` and `btrmHandle = -1`. -/
def State.init : State :=
  { controller_bda := List.replicate 6 0, btrmHandle := -1, polls := 0, trace := [] }

/-- Record one platform call. -/
def State.emit (s : State) (e : Ev) : State :=
  { s with trace := s.trace ++ [e] }

/-- Record several platform calls, in order. -/
def State.emits (s : State) (es : List Ev) : State :=
  { s with trace := s.trace ++ es }

/-! ## Memory helpers -/

/-- `memcpy(dst + d, src + o, n)`: bytes `[d, d+n)` of `dst` are replaced by bytes
`[o, o+n)` of `src` (a byte outside `src` reads as 0). -/
def memcpy (dst : List Nat) (d : Nat) (src : List Nat) (o n : Nat) : List Nat :=
  dst.take d ++ (List.range n).map (fun i => src.getD (o + i) 0) ++ dst.drop (d + n)

/-- An output buffer after the callee stored `data` at its start; the buffer keeps
its size, bytes the callee did not reach keep their value. -/
def fill (buf data : List Nat) : List Nat :=
  data.take buf.length ++ buf.drop data.length

/-- `__builtin_bswap16` on a 16-bit value. -/
def bswap16 (x : Nat) : Nat :=
  (x % 256) * 256 + (x / 256) % 256

/-! ## The report codec -/

/-- `ds3ReadBDA(handle, outBDA)`: returns `res` and the contents of `outBDA`
afterwards. -/
def ds3ReadBDA (env : Env) (handle : Nat) (outBDA : List Nat) (s : State) :
    (Int × List Nat) × State :=
  let buf := List.replicate 18 0
  let r := env.HIDGetReport handle HID_REPORT_FEATURE 0xf2 18
  let s := s.emit (Ev.HIDGetReport handle HID_REPORT_FEATURE 0xf2 18)
  let res := r.1
  let buf := fill buf r.2
  if res ≥ 0 then
    ((res, memcpy outBDA 0 buf 4 6), s)
  else
    ((res, outBDA), s)

/-- `ds3WriteMasterBDA(handle, bda)`. -/
def ds3WriteMasterBDA (env : Env) (handle : Nat) (bda : List Nat) (s : State) :
    Int × State :=
  let buf := List.replicate 8 0
  let buf := memcpy buf 2 bda 0 6
  (env.HIDSetReport handle HID_REPORT_FEATURE 0xf5 buf 8,
    s.emit (Ev.HIDSetReport handle HID_REPORT_FEATURE 0xf5 buf 8))

/-! ## The attach callback -/

/-- `hidAttachCallback(client, device, event)`. -/
def hidAttachCallback (env : Env) (device : HIDDevice) (event : HIDAttachEvent)
    (s : State) : HIDAttachEvent × State :=
  if event = HID_DEVICE_ATTACH then
    if bswap16 device.vid = DS3_VID ∧ bswap16 device.pid = DS3_PID then
      let bda := List.replicate 6 0
      let r := ds3ReadBDA env device.handle bda s
      let res := r.1.1
      let bda := r.1.2
      let s := r.2
      if res < 0 then
        let s := s.emit (Ev.WHBLogPrintf "Failed to read bda: %x" [res])
        let s := s.emit Ev.WHBLogConsoleDraw
        (HID_DEVICE_DETACH, s)
      else
        let s := s.emit (Ev.WHBLogPrintf
          "DualShock 3 (%02x:%02x:%02x:%02x:%02x:%02x) connected"
          (bda.map Int.ofNat))
        let s := s.emit (Ev.WHBLogPrintf "Setting master address..." [])
        let s := s.emit Ev.WHBLogConsoleDraw
        let w := ds3WriteMasterBDA env device.handle s.controller_bda s
        let res := w.1
        let s := w.2
        if res < 0 then
          let s := s.emit (Ev.WHBLogPrintf "Failed write master bda: %x" [res])
          let s := s.emit Ev.WHBLogConsoleDraw
          (HID_DEVICE_DETACH, s)
        else
          let s := s.emit (Ev.WHBLogPrintf "Adding pairing..." [])
          let s := s.emit Ev.WHBLogConsoleDraw
          let link_key := List.replicate 16 0
          let s := s.emit (Ev.addControllerPairing s.btrmHandle bda link_key
            "Nintendo RVL-CNT-01-UC" DS3_VID DS3_PID)
          let s := s.emit (Ev.WHBLogPrintf "Paired!" [])
          let s := s.emit Ev.WHBLogConsoleDraw
          (HID_DEVICE_DETACH, s)
    else
      (HID_DEVICE_DETACH, s)
  else
    (HID_DEVICE_DETACH, s)

/-! ## The pairing menu -/

/-- The test `kpad_status.extensionType == WPAD_EXT_CLASSIC || ... ==
WPAD_EXT_PRO_CONTROLLER || ... == WPAD_EXT_MPLUS_CLASSIC`. -/
def proLayout (P : PadConsts) (st : KPADStatus) : Bool :=
  st.extensionType == P.WPAD_EXT_CLASSIC ||
  st.extensionType == P.WPAD_EXT_PRO_CONTROLLER ||
  st.extensionType == P.WPAD_EXT_MPLUS_CLASSIC

/-- The C condition `hold & mask`. -/
def held (hold mask : Nat) : Bool :=
  (hold &&& mask) != 0

/-- `VPADRead(VPAD_CHAN_0, &status, 1, nullptr)` into a zeroed `status`. -/
def vpadRead (P : PadConsts) (env : Env) (s : State) : VPADStatus × State :=
  let status := env.VPADRead s.polls P.VPAD_CHAN_0
  (status, { s with polls := s.polls + 1,
                    trace := s.trace ++ [Ev.VPADRead P.VPAD_CHAN_0 status] })

/-- `KPADRead((KPADChan) i, &kpad_status, 1)` into a zeroed `kpad_status`. -/
def kpadRead (env : Env) (i : Nat) (s : State) : KPADStatus × State :=
  let kpad_status := env.KPADRead s.polls i
  (kpad_status, { s with polls := s.polls + 1,
                         trace := s.trace ++ [Ev.KPADRead i kpad_status] })

/-- The inner `for (int i = 0; i < 4; i++)` of the sampling loop, from channel `i`
with `n` iterations left. Its `break` leaves this loop only. -/
def confirmKpadLoop (P : PadConsts) (env : Env) :
    (n i : Nat) → (openMenu : Bool) → State → Bool × State
  | 0, _, openMenu, s => (openMenu, s)
  | n + 1, i, openMenu, s =>
    let r := kpadRead env i s
    let kpad_status := r.1
    let s := r.2
    if proLayout P kpad_status then
      if held kpad_status.proHold P.WPAD_PRO_BUTTON_A then
        (true, s)
      else
        confirmKpadLoop P env n (i + 1) openMenu s
    else
      if held kpad_status.hold P.WPAD_BUTTON_A then
        (true, s)
      else
        confirmKpadLoop P env n (i + 1) openMenu s

/-- The outer `for (int i = 0; i < 5; i++)` of the sampling loop with `n`
iterations left. -/
def confirmLoop (P : PadConsts) (env : Env) :
    (n : Nat) → (openMenu : Bool) → State → Bool × State
  | 0, openMenu, s => (openMenu, s)
  | n + 1, openMenu, s =>
    let r := vpadRead P env s
    let status := r.1
    let s := r.2
    if held status.hold P.VPAD_BUTTON_A then
      (true, s)
    else
      let k := confirmKpadLoop P env 4 0 openMenu s
      confirmLoop P env n k.1 k.2

/-- The inner `for` of the active loop; the result is `menuOpened`. -/
def cancelKpadLoop (P : PadConsts) (env : Env) :
    (n i : Nat) → (menuOpened : Bool) → State → Bool × State
  | 0, _, menuOpened, s => (menuOpened, s)
  | n + 1, i, menuOpened, s =>
    let r := kpadRead env i s
    let kpad_status := r.1
    let s := r.2
    if proLayout P kpad_status then
      if held kpad_status.proHold P.WPAD_PRO_BUTTON_B then
        (false, s)
      else
        cancelKpadLoop P env n (i + 1) menuOpened s
    else
      if held kpad_status.hold P.WPAD_BUTTON_B then
        (false, s)
      else
        cancelKpadLoop P env n (i + 1) menuOpened s

/-- The loop `while (menuOpened)`, entered with `menuOpened = true`. It has no bound
in the source; `fuel` bounds the iterations and `none` means the bound was
reached. -/
def cancelLoop (P : PadConsts) (env : Env) : (fuel : Nat) → State → Option State
  | 0, _ => none
  | fuel + 1, s =>
    let r := vpadRead P env s
    let status := r.1
    let s := r.2
    if held status.hold P.VPAD_BUTTON_B then
      some s
    else
      let k := cancelKpadLoop P env 4 0 true s
      if k.1 then cancelLoop P env fuel k.2 else some k.2

/-- Lines 104-120: the four exports are looked up in `padscore.rpl` (the lookups
are taken to succeed) and the input libraries are started. -/
def acquireInput (s : State) : State :=
  s.emits [Ev.OSDynLoad_Acquire "padscore.rpl",
    Ev.OSDynLoad_FindExport "KPADInit",
    Ev.OSDynLoad_FindExport "KPADShutdown",
    Ev.OSDynLoad_FindExport "WPADEnableURCC",
    Ev.OSDynLoad_FindExport "KPADRead",
    Ev.VPADInit, Ev.KPADInit, Ev.WPADEnableURCC 1]

/-- Lines 122-152: `bool openMenu = false;` and the sampling loop. -/
def samplePhase (P : PadConsts) (env : Env) (s : State) : Bool × State :=
  confirmLoop P env 5 false s

/-- Lines 160-165: the console is opened and the banner printed. -/
def openConsole (s : State) : State :=
  s.emits [Ev.WHBLogConsoleInit, Ev.WHBLogConsoleSetColor 0,
    Ev.WHBLogPrintf "=== Bloopair USB Controller pairing ===" [],
    Ev.WHBLogPrintf "Connect a DualShock 3 using a USB cable to pair it" [],
    Ev.WHBLogPrintf "Press B to exit" [],
    Ev.WHBLogConsoleDraw]

/-- Lines 160-254 of `handle_pairing_menu`, reached when `openMenu` is true. -/
def runMenu (P : PadConsts) (env : Env) (fuel : Nat) (s : State) : Option State :=
  let s := openConsole s
  let s : State := { s.emit Ev.openBtrm with btrmHandle := env.openBtrm }
  if s.btrmHandle < 0 then
    some (s.emits [Ev.WHBLogPrintf "Failed to open btrm" [], Ev.WHBLogConsoleDraw,
      Ev.sleep 2, Ev.VPADShutdown, Ev.KPADShutdown])
  else
    let r := env.readControllerBDAddr s.btrmHandle
    let s : State := { s.emit (Ev.readControllerBDAddr s.btrmHandle) with
                controller_bda := fill s.controller_bda r.2 }
    if r.1 < 0 then
      some (s.emits [Ev.WHBLogPrintf "Failed to read local bda" [], Ev.WHBLogConsoleDraw,
        Ev.sleep 2, Ev.VPADShutdown, Ev.KPADShutdown])
    else
      let s := s.emits [Ev.WHBLogPrintf "Local BDA is: %02x:%02x:%02x:%02x:%02x:%02x"
          (s.controller_bda.map Int.ofNat),
        Ev.WHBLogPrintf "" [], Ev.WHBLogConsoleDraw]
      let s := s.emit Ev.HIDSetup
      if env.HIDSetup < 0 then
        some (s.emits [Ev.WHBLogPrintf "Failed to setup HID" [], Ev.WHBLogConsoleDraw,
          Ev.sleep 2, Ev.VPADShutdown])
      else
        let s := s.emit Ev.HIDAddClient
        if env.HIDAddClient < 0 then
          some (s.emits [Ev.WHBLogPrintf "Failed to add HID client" [],
            Ev.WHBLogConsoleDraw, Ev.sleep 2, Ev.VPADShutdown, Ev.KPADShutdown])
        else
          match cancelLoop P env fuel s with
          | none => none
          | some s =>
            some (s.emits [Ev.HIDDelClient, Ev.HIDTeardown, Ev.closeBtrm s.btrmHandle,
              Ev.WHBLogConsoleFree, Ev.VPADShutdown, Ev.WPADEnableURCC 0,
              Ev.KPADShutdown])

/-- `handle_pairing_menu()`; `none` only when the active loop used up `fuel`. -/
def handle_pairing_menu (P : PadConsts) (env : Env) (fuel : Nat) (s : State) :
    Option State :=
  let s := acquireInput s
  let r := samplePhase P env s
  let openMenu := r.1
  let s := r.2
  if !openMenu then
    some (s.emits [Ev.VPADShutdown, Ev.KPADShutdown])
  else
    runMenu P env fuel s

/-! ## Reading a trace -/

/-- The calls a run added to the trace. -/
def emitted (s s' : State) : List Ev :=
  s'.trace.drop s.trace.length

/-- Calls to the diagnostic surface (`whb/log.h`, `whb/log_console.h`). -/
def Ev.isConsole : Ev → Bool
  | .WHBLogPrintf _ _ => true
  | .WHBLogConsoleDraw => true
  | .WHBLogConsoleInit => true
  | .WHBLogConsoleSetColor _ => true
  | .WHBLogConsoleFree => true
  | _ => false

/-- Calls to the btrm client of `ipc.hpp`. -/
def Ev.isRegistrar : Ev → Bool
  | .openBtrm => true
  | .readControllerBDAddr _ => true
  | .addControllerPairing _ _ _ _ _ _ => true
  | .closeBtrm _ => true
  | _ => false

/-- Calls to nsyshid. -/
def Ev.isHID : Ev → Bool
  | .HIDSetup => true
  | .HIDAddClient => true
  | .HIDDelClient => true
  | .HIDTeardown => true
  | .HIDGetReport _ _ _ _ => true
  | .HIDSetReport _ _ _ _ _ => true
  | _ => false

/-- Reads of an input source. -/
def Ev.isRead : Ev → Bool
  | .VPADRead _ _ => true
  | .KPADRead _ _ => true
  | _ => false

def Ev.isGetReport : Ev → Bool
  | .HIDGetReport _ _ _ _ => true
  | _ => false

def Ev.isSetReport : Ev → Bool
  | .HIDSetReport _ _ _ _ _ => true
  | _ => false

def Ev.isAddPairing : Ev → Bool
  | .addControllerPairing _ _ _ _ _ _ => true
  | _ => false

def Ev.isCloseBtrm : Ev → Bool
  | .closeBtrm _ => true
  | _ => false

/-- The calls of a trace that go to the transport or the registrar, in order. -/
def protocolCalls (tr : List Ev) : List Ev :=
  tr.filter (fun e => e.isHID || e.isRegistrar)

/-- Following the claim's words, not the code: a recorded input sample has its
confirm control held when `VPAD_BUTTON_A` is set in `hold` for the primary
source; for an auxiliary source, when `WPAD_PRO_BUTTON_A` is set in `pro.hold` if
the extension type is classic, pro controller or motion-plus classic, and when
`WPAD_BUTTON_A` is set in `hold` for every other extension type. -/
def specConfirmHeld (P : PadConsts) : Ev → Bool
  | .VPADRead _ status => decide (status.hold &&& P.VPAD_BUTTON_A ≠ 0)
  | .KPADRead _ st =>
    if st.extensionType = P.WPAD_EXT_CLASSIC ∨
        st.extensionType = P.WPAD_EXT_PRO_CONTROLLER ∨
        st.extensionType = P.WPAD_EXT_MPLUS_CLASSIC then
      decide (st.proHold &&& P.WPAD_PRO_BUTTON_A ≠ 0)
    else
      decide (st.hold &&& P.WPAD_BUTTON_A ≠ 0)
  | _ => false

/-- Following the claim's words, not the code: the bounded window is 5 iterations,
each reading the primary source and then the auxiliary channels 0 to 3. This is
the read at position `k` of that window (`k = 0 .. 24`), for a window that
starts after `p0` earlier input reads: position `5 * m` is the primary read of
iteration `m`, position `5 * m + 1 + c` the read of auxiliary channel `c`. -/
def scriptRead (P : PadConsts) (env : Env) (p0 k : Nat) : Ev :=
  if k % 5 = 0 then
    Ev.VPADRead P.VPAD_CHAN_0 (env.VPADRead (p0 + k) P.VPAD_CHAN_0)
  else
    Ev.KPADRead (k % 5 - 1) (env.KPADRead (p0 + k) (k % 5 - 1))

/-- Whether the sample at position `k` of the scripted window reports confirm
held. -/
def scriptConfirm (P : PadConsts) (env : Env) (p0 k : Nat) : Bool :=
  specConfirmHeld P (scriptRead P env p0 k)

/-- One assignment of the header constants, used for concrete runs. -/
def padConsts : PadConsts :=
  { VPAD_CHAN_0 := 0, VPAD_BUTTON_A := 0x8000, VPAD_BUTTON_B := 0x4000,
    WPAD_BUTTON_A := 0x0800, WPAD_BUTTON_B := 0x0400,
    WPAD_PRO_BUTTON_A := 0x10, WPAD_PRO_BUTTON_B := 0x40,
    WPAD_EXT_CLASSIC := 2, WPAD_EXT_PRO_CONTROLLER := 0x1f,
    WPAD_EXT_MPLUS_CLASSIC := 7 }

/-! ## Concrete environments -/

/-- A DualShock 3 as nsyshid reports it: vendor 0x054c and product 0x0268 with
their bytes swapped. -/
def ds3Device : HIDDevice :=
  { handle := 5, vid := 0x4c05, pid := 0x6802 }

/-- A device with another vendor id. -/
def otherDevice : HIDDevice :=
  { handle := 6, vid := 0x5e04, pid := 0x8e02 }

/-- An environment in which every call succeeds: the controller reports the
address AA:BB:CC:DD:EE:FF, the local address is 11:22:33:44:55:66, the confirm
button of the primary source is held at the first read and its cancel button at
the second. -/
def envOk : Env :=
  { HIDGetReport := fun _ _ _ _ =>
      (18, [0xf2, 0xff, 0xff, 0x00, 0xAA, 0xBB, 0xCC, 0xDD, 0xEE, 0xFF,
            0x00, 0x03, 0x50, 0x81, 0xd8, 0x01, 0x8a, 0x13]),
    HIDSetReport := fun _ _ _ _ _ => 8,
    addControllerPairing := fun _ _ _ _ _ _ => 0,
    VPADRead := fun polls _ => { hold := if polls = 0 then 0x8000 else 0x4000 },
    KPADRead := fun _ _ => { hold := 0, extensionType := 0, proHold := 0 },
    openBtrm := 3,
    readControllerBDAddr := fun _ => (0, [0x11, 0x22, 0x33, 0x44, 0x55, 0x66]),
    HIDSetup := 0,
    HIDAddClient := 0 }

/-- The state while the menu is active in `envOk`. -/
def activeState : State :=
  { State.init with controller_bda := [0x11, 0x22, 0x33, 0x44, 0x55, 0x66], btrmHandle := 3 }

/-- As `envOk`, but the get-report call fails. -/
def envGetFails : Env :=
  { envOk with HIDGetReport := fun _ _ _ _ => (-1, []) }

/-- As `envOk`, but the set-report call fails. -/
def envSetFails : Env :=
  { envOk with HIDSetReport := fun _ _ _ _ _ => -1 }

/-- As `envOk`, but the get-report call transfers 5 bytes only. -/
def envShortRead : Env :=
  { envOk with HIDGetReport := fun _ _ _ _ => (5, [0xf2, 0xff, 0xff, 0x00, 0xAA]) }

/-- As `envOk`, but `addControllerPairing` answers a negative status. -/
def envPairingFails : Env :=
  { envOk with addControllerPairing := fun _ _ _ _ _ _ => -1 }

/-- As `envOk`, but no confirm button is ever held. -/
def envNoConfirm : Env :=
  { envOk with VPADRead := fun _ _ => { hold := 0 } }

/-- As `envNoConfirm`, but the sixth sample read (the second read of the primary
source) has the confirm button held. -/
def envLateConfirm : Env :=
  { envOk with VPADRead := fun polls _ => { hold := if polls = 5 then 0x8000 else 0 } }

/-- No primary confirm; the thirteenth sample read (third iteration, auxiliary
channel 1) is a Pro Controller (extension type 0x1f) with A held in `pro.hold`
and nothing in `hold`. -/
def envProConfirm : Env :=
  { envOk with
    VPADRead := fun _ _ => { hold := 0 },
    KPADRead := fun polls _ =>
      if polls = 12 then { hold := 0, extensionType := 0x1f, proHold := 0x10 }
      else { hold := 0, extensionType := 0, proHold := 0 } }

/-- No primary confirm; the last sample of the window (fifth iteration,
auxiliary channel 3) is a plain remote (extension type 0) with A held in
`hold`. -/
def envRemoteConfirm : Env :=
  { envOk with
    VPADRead := fun _ _ => { hold := 0 },
    KPADRead := fun polls _ =>
      if polls = 24 then { hold := 0x0800, extensionType := 0, proHold := 0 }
      else { hold := 0, extensionType := 0, proHold := 0 } }

/-- Buttons are held that are not the confirm control of their layout: a Pro
Controller with bit 0x0800 in `hold`, never A in `pro.hold`; the primary source
holds B. -/
def envWrongLayout : Env :=
  { envOk with
    VPADRead := fun _ _ => { hold := 0x4000 },
    KPADRead := fun _ _ => { hold := 0x0800, extensionType := 0x1f, proHold := 0x40 } }

/-- As `envOk`, but `openBtrm` answers a negative handle. -/
def envBtrmFails : Env :=
  { envOk with openBtrm := -1 }

/-- As `envOk`, but `readControllerBDAddr` fails. -/
def envLocalAddrFails : Env :=
  { envOk with readControllerBDAddr := fun _ => (-1, []) }

/-- As `envOk`, but `HIDSetup` fails. -/
def envHIDSetupFails : Env :=
  { envOk with HIDSetup := -1 }

/-- As `envOk`, but `HIDAddClient` fails. -/
def envHIDAddClientFails : Env :=
  { envOk with HIDAddClient := -1 }

/-- The samples read in the sampling window of `handle_pairing_menu` started in
state `s`, in the order they were read. -/
def samples (P : PadConsts) (env : Env) (s : State) : List Ev :=
  emitted (acquireInput s) (samplePhase P env (acquireInput s)).2

/-- The calls of lines 111-120, as `acquireInput` records them. -/
def acquireCalls : List Ev :=
  [Ev.OSDynLoad_Acquire "padscore.rpl",
   Ev.OSDynLoad_FindExport "KPADInit",
   Ev.OSDynLoad_FindExport "KPADShutdown",
   Ev.OSDynLoad_FindExport "WPADEnableURCC",
   Ev.OSDynLoad_FindExport "KPADRead",
   Ev.VPADInit, Ev.KPADInit, Ev.WPADEnableURCC 1]

/-- The calls of lines 160-165, as `openConsole` records them. -/
def consoleCalls : List Ev :=
  [Ev.WHBLogConsoleInit, Ev.WHBLogConsoleSetColor 0,
   Ev.WHBLogPrintf "=== Bloopair USB Controller pairing ===" [],
   Ev.WHBLogPrintf "Connect a DualShock 3 using a USB cable to pair it" [],
   Ev.WHBLogPrintf "Press B to exit" [],
   Ev.WHBLogConsoleDraw]

/-! ## Lemmas on the memory helpers -/

theorem fill_length (buf data : List Nat) : (fill buf data).length = buf.length := by
  unfold fill
  simp only [List.length_append, List.length_take, List.length_drop]
  omega

theorem fill_of_length_eq (buf data : List Nat) (h : data.length = buf.length) :
    fill buf data = data := by
  unfold fill
  simp [← h]

theorem map_range_getD (l : List Nat) (o n : Nat) (h : o + n ≤ l.length) :
    (List.range n).map (fun i => l.getD (o + i) 0) = (l.drop o).take n := by
  apply List.ext_getElem
  · simp only [List.length_map, List.length_range, List.length_take, List.length_drop]
    omega
  · intro i h1 h2
    simp only [List.length_map, List.length_range] at h1
    have h3 : o + i < l.length := by omega
    simp [List.getD_eq_getElem?_getD, List.getElem?_eq_getElem h3]

theorem memcpy_zero_six (out buf : List Nat) (hout : out.length = 6)
    (hbuf : buf.length = 18) : memcpy out 0 buf 4 6 = (buf.drop 4).take 6 := by
  unfold memcpy
  rw [map_range_getD buf 4 6 (by omega)]
  simp [List.drop_eq_nil_of_le (le_of_eq hout)]

theorem memcpy_payload (bda : List Nat) (h : bda.length = 6) :
    memcpy (List.replicate 8 0) 2 bda 0 6 = [0, 0] ++ bda := by
  unfold memcpy
  rw [map_range_getD bda 0 6 (by omega)]
  simp [List.take_of_length_le (le_of_eq h)]

theorem emitted_append (s : State) (t : State) (es : List Ev)
    (h : t.trace = s.trace ++ es) : emitted s t = es := by
  unfold emitted
  rw [h]
  simp

/-! ## The report codec -/

theorem ds3ReadBDA_trace (env : Env) (handle : Nat) (outBDA : List Nat) (s : State) :
    (ds3ReadBDA env handle outBDA s).2
      = s.emit (Ev.HIDGetReport handle HID_REPORT_FEATURE 0xf2 18) := by
  unfold ds3ReadBDA
  by_cases h : (env.HIDGetReport handle HID_REPORT_FEATURE 0xf2 18).1 ≥ 0 <;> simp [h]

theorem ds3ReadBDA_res (env : Env) (handle : Nat) (outBDA : List Nat) (s : State) :
    (ds3ReadBDA env handle outBDA s).1.1
      = (env.HIDGetReport handle HID_REPORT_FEATURE 0xf2 18).1 := by
  unfold ds3ReadBDA
  by_cases h : (env.HIDGetReport handle HID_REPORT_FEATURE 0xf2 18).1 ≥ 0 <;> simp [h]

theorem ds3ReadBDA_out (env : Env) (handle : Nat) (outBDA : List Nat) (s : State)
    (hout : outBDA.length = 6)
    (h : 0 ≤ (env.HIDGetReport handle HID_REPORT_FEATURE 0xf2 18).1) :
    (ds3ReadBDA env handle outBDA s).1.2
      = ((fill (List.replicate 18 0)
          (env.HIDGetReport handle HID_REPORT_FEATURE 0xf2 18).2).drop 4).take 6 := by
  unfold ds3ReadBDA
  have h1 : (env.HIDGetReport handle HID_REPORT_FEATURE 0xf2 18).1 ≥ 0 := h
  simp only [h1, if_true]
  exact memcpy_zero_six _ _ hout (by rw [fill_length]; simp)

/-- C2: when the get-feature-report call answers a non-negative status and an
18-byte buffer `pre ++ mid ++ post` (4, 6 and 8 bytes), `ds3ReadBDA` leaves exactly
`mid`, bytes [4,10), in its output whatever `pre` and `post` are, returns the
status, and its one request is a feature report (type 3) with id 0xF2 and
length 18. -/
theorem ds3ReadBDA_extracts_bytes_4_to_10 (env : Env) (handle : Nat)
    (outBDA : List Nat) (s : State) (res : Int) (pre mid post : List Nat)
    (hout : outBDA.length = 6)
    (hpre : pre.length = 4) (hmid : mid.length = 6) (hpost : post.length = 8)
    (hresp : env.HIDGetReport handle HID_REPORT_FEATURE 0xf2 18 = (res, pre ++ mid ++ post))
    (hres : 0 ≤ res) :
    (ds3ReadBDA env handle outBDA s).1 = (res, mid) ∧
    ((pre ++ mid ++ post).drop 4).take 6 = mid ∧
    emitted s (ds3ReadBDA env handle outBDA s).2 = [Ev.HIDGetReport handle 3 0xf2 18] := by
  have hslice : ((pre ++ mid ++ post).drop 4).take 6 = mid := by
    rw [List.append_assoc, List.drop_append_of_le_length (by omega)]
    simp [List.drop_eq_nil_of_le (le_of_eq hpre), ← hmid]
  refine ⟨?_, hslice, ?_⟩
  · apply Prod.ext
    · rw [ds3ReadBDA_res, hresp]
    · rw [ds3ReadBDA_out env handle outBDA s hout (by rw [hresp]; exact hres), hresp]
      simp only []
      rw [fill_of_length_eq _ _ (by simp; omega)]
      exact hslice
  · apply emitted_append
    rw [ds3ReadBDA_trace]
    rfl

theorem ds3ReadBDA_extracts_bytes_4_to_10_witness :
    (ds3ReadBDA envOk 5 (List.replicate 6 0) State.init).1
        = (18, [0xAA, 0xBB, 0xCC, 0xDD, 0xEE, 0xFF]) ∧
    emitted State.init (ds3ReadBDA envOk 5 (List.replicate 6 0) State.init).2
        = [Ev.HIDGetReport 5 3 0xf2 18] :=
  have h := ds3ReadBDA_extracts_bytes_4_to_10 envOk 5 (List.replicate 6 0) State.init 18
    [0xf2, 0xff, 0xff, 0x00] [0xAA, 0xBB, 0xCC, 0xDD, 0xEE, 0xFF]
    [0x00, 0x03, 0x50, 0x81, 0xd8, 0x01, 0x8a, 0x13]
    (by decide) (by decide) (by decide) (by decide) rfl (by decide)
  ⟨h.1, h.2.2⟩

/-- C3: for a 6-byte address, `ds3WriteMasterBDA` makes exactly one call, a
set-feature-report (type 3) with id 0xF5 and the 8-byte payload `[0, 0] ++ addr`,
and returns the status of that call. -/
theorem ds3WriteMasterBDA_payload (env : Env) (handle : Nat) (addr : List Nat)
    (s : State) (haddr : addr.length = 6) :
    emitted s (ds3WriteMasterBDA env handle addr s).2
      = [Ev.HIDSetReport handle 3 0xf5 ([0, 0] ++ addr) 8] ∧
    ([0, 0] ++ addr).length = 8 ∧
    (ds3WriteMasterBDA env handle addr s).1
      = env.HIDSetReport handle 3 0xf5 ([0, 0] ++ addr) 8 := by
  unfold ds3WriteMasterBDA
  simp only [memcpy_payload addr haddr]
  refine ⟨?_, ?_, rfl⟩
  · apply emitted_append
    rfl
  · simp [haddr]

theorem ds3WriteMasterBDA_payload_witness :
    emitted activeState
        (ds3WriteMasterBDA envOk 5 [0x11, 0x22, 0x33, 0x44, 0x55, 0x66] activeState).2
      = [Ev.HIDSetReport 5 3 0xf5 [0, 0, 0x11, 0x22, 0x33, 0x44, 0x55, 0x66] 8] ∧
    (ds3WriteMasterBDA envOk 5 [0x11, 0x22, 0x33, 0x44, 0x55, 0x66] activeState).1 = 8 :=
  have h := ds3WriteMasterBDA_payload envOk 5 [0x11, 0x22, 0x33, 0x44, 0x55, 0x66]
    activeState (by decide)
  ⟨h.1, h.2.2⟩

/-! ## The attach callback -/

/-- The run of `hidAttachCallback` on a matching attach event whose read step
fails. -/
theorem hidAttachCallback_read_failed (env : Env) (device : HIDDevice) (s : State)
    (hvid : bswap16 device.vid = DS3_VID) (hpid : bswap16 device.pid = DS3_PID)
    (hget : (env.HIDGetReport device.handle HID_REPORT_FEATURE 0xf2 18).1 < 0) :
    hidAttachCallback env device HID_DEVICE_ATTACH s
      = (HID_DEVICE_DETACH, s.emits
          [Ev.HIDGetReport device.handle HID_REPORT_FEATURE 0xf2 18,
           Ev.WHBLogPrintf "Failed to read bda: %x"
             [(env.HIDGetReport device.handle HID_REPORT_FEATURE 0xf2 18).1],
           Ev.WHBLogConsoleDraw]) := by
  unfold hidAttachCallback
  simp only [hvid, hpid, and_self, if_true, ds3ReadBDA_res, ds3ReadBDA_trace, hget]
  simp [State.emit, State.emits]

/-- The run of `hidAttachCallback` on a matching attach event whose read step
succeeds and whose write step fails. -/
theorem hidAttachCallback_write_failed (env : Env) (device : HIDDevice) (s : State)
    (hvid : bswap16 device.vid = DS3_VID) (hpid : bswap16 device.pid = DS3_PID)
    (hL : s.controller_bda.length = 6)
    (hget : 0 ≤ (env.HIDGetReport device.handle HID_REPORT_FEATURE 0xf2 18).1)
    (hset : env.HIDSetReport device.handle HID_REPORT_FEATURE 0xf5
      ([0, 0] ++ s.controller_bda) 8 < 0) :
    hidAttachCallback env device HID_DEVICE_ATTACH s
      = (HID_DEVICE_DETACH, s.emits
          [Ev.HIDGetReport device.handle HID_REPORT_FEATURE 0xf2 18,
           Ev.WHBLogPrintf "DualShock 3 (%02x:%02x:%02x:%02x:%02x:%02x) connected"
             ((((fill (List.replicate 18 0)
               (env.HIDGetReport device.handle HID_REPORT_FEATURE 0xf2 18).2).drop 4).take 6).map
               Int.ofNat),
           Ev.WHBLogPrintf "Setting master address..." [],
           Ev.WHBLogConsoleDraw,
           Ev.HIDSetReport device.handle HID_REPORT_FEATURE 0xf5
             ([0, 0] ++ s.controller_bda) 8,
           Ev.WHBLogPrintf "Failed write master bda: %x"
             [env.HIDSetReport device.handle HID_REPORT_FEATURE 0xf5
               ([0, 0] ++ s.controller_bda) 8],
           Ev.WHBLogConsoleDraw]) := by
  unfold hidAttachCallback
  have hget' : ¬ (env.HIDGetReport device.handle HID_REPORT_FEATURE 0xf2 18).1 < 0 :=
    not_lt.mpr hget
  simp only [hvid, hpid, and_self, if_true, ds3ReadBDA_res, ds3ReadBDA_trace, hget',
    if_false, ds3ReadBDA_out env device.handle _ s (List.length_replicate 6 0) hget]
  unfold ds3WriteMasterBDA
  simp only [State.emit, memcpy_payload _ hL, hset, if_true]
  simp [State.emits]

/-- The run of `hidAttachCallback` on a matching attach event whose read and write
steps succeed. -/
theorem hidAttachCallback_paired (env : Env) (device : HIDDevice) (s : State)
    (hvid : bswap16 device.vid = DS3_VID) (hpid : bswap16 device.pid = DS3_PID)
    (hL : s.controller_bda.length = 6)
    (hget : 0 ≤ (env.HIDGetReport device.handle HID_REPORT_FEATURE 0xf2 18).1)
    (hset : 0 ≤ env.HIDSetReport device.handle HID_REPORT_FEATURE 0xf5
      ([0, 0] ++ s.controller_bda) 8) :
    hidAttachCallback env device HID_DEVICE_ATTACH s
      = (HID_DEVICE_DETACH, s.emits
          [Ev.HIDGetReport device.handle HID_REPORT_FEATURE 0xf2 18,
           Ev.WHBLogPrintf "DualShock 3 (%02x:%02x:%02x:%02x:%02x:%02x) connected"
             ((((fill (List.replicate 18 0)
               (env.HIDGetReport device.handle HID_REPORT_FEATURE 0xf2 18).2).drop 4).take 6).map
               Int.ofNat),
           Ev.WHBLogPrintf "Setting master address..." [],
           Ev.WHBLogConsoleDraw,
           Ev.HIDSetReport device.handle HID_REPORT_FEATURE 0xf5
             ([0, 0] ++ s.controller_bda) 8,
           Ev.WHBLogPrintf "Adding pairing..." [],
           Ev.WHBLogConsoleDraw,
           Ev.addControllerPairing s.btrmHandle
             (((fill (List.replicate 18 0)
               (env.HIDGetReport device.handle HID_REPORT_FEATURE 0xf2 18).2).drop 4).take 6)
             (List.replicate 16 0) "Nintendo RVL-CNT-01-UC" DS3_VID DS3_PID,
           Ev.WHBLogPrintf "Paired!" [],
           Ev.WHBLogConsoleDraw]) := by
  unfold hidAttachCallback
  have hget' : ¬ (env.HIDGetReport device.handle HID_REPORT_FEATURE 0xf2 18).1 < 0 :=
    not_lt.mpr hget
  have hset' : ¬ env.HIDSetReport device.handle HID_REPORT_FEATURE 0xf5
      ([0, 0] ++ s.controller_bda) 8 < 0 := not_lt.mpr hset
  simp only [hvid, hpid, and_self, if_true, ds3ReadBDA_res, ds3ReadBDA_trace, hget',
    if_false, ds3ReadBDA_out env device.handle _ s (List.length_replicate 6 0) hget]
  unfold ds3WriteMasterBDA
  simp only [State.emit, memcpy_payload _ hL, hset', if_false]
  simp [State.emits]

theorem emitted_emits (s : State) (es : List Ev) : emitted s (s.emits es) = es :=
  emitted_append s _ es rfl

/-- C1: on an attach event of a device whose byte-swapped ids are
(0x054c, 0x0268), with local address `L` (6 bytes), a get-report answer of
non-negative status whose buffer holds `R` in bytes [4,10) and a set-report
answer of non-negative status, the calls `hidAttachCallback` makes to the
transport and the registrar are exactly: get feature report 0xF2, set feature
report 0xF5 with payload `[0, 0] ++ L`, and one `addControllerPairing` with
`R`, 16 zero bytes, "Nintendo RVL-CNT-01-UC", 0x054c, 0x0268; the result is
`HID_DEVICE_DETACH`. -/
theorem hidAttachCallback_pairing_sequence (env : Env) (device : HIDDevice) (s : State)
    (R L : List Nat)
    (hvid : bswap16 device.vid = 0x054c) (hpid : bswap16 device.pid = 0x0268)
    (hL : s.controller_bda = L) (hLlen : L.length = 6)
    (hget : 0 ≤ (env.HIDGetReport device.handle 3 0xf2 18).1)
    (hR : ((fill (List.replicate 18 0)
      (env.HIDGetReport device.handle 3 0xf2 18).2).drop 4).take 6 = R)
    (hset : 0 ≤ env.HIDSetReport device.handle 3 0xf5 ([0, 0] ++ L) 8) :
    (hidAttachCallback env device HID_DEVICE_ATTACH s).1 = HID_DEVICE_DETACH ∧
    protocolCalls (emitted s (hidAttachCallback env device HID_DEVICE_ATTACH s).2)
      = [Ev.HIDGetReport device.handle 3 0xf2 18,
         Ev.HIDSetReport device.handle 3 0xf5 ([0, 0] ++ L) 8,
         Ev.addControllerPairing s.btrmHandle R (List.replicate 16 0)
           "Nintendo RVL-CNT-01-UC" 0x054c 0x0268] := by
  subst hL
  rw [hidAttachCallback_paired env device s hvid hpid hLlen hget hset]
  refine ⟨rfl, ?_⟩
  rw [emitted_emits]
  change ((fill (List.replicate 18 0)
      (env.HIDGetReport device.handle HID_REPORT_FEATURE 0xf2 18).2).drop 4).take 6 = R at hR
  rw [hR]
  rfl

theorem hidAttachCallback_pairing_sequence_witness :
    (hidAttachCallback envOk ds3Device HID_DEVICE_ATTACH activeState).1
      = HID_DEVICE_DETACH ∧
    protocolCalls (emitted activeState
        (hidAttachCallback envOk ds3Device HID_DEVICE_ATTACH activeState).2)
      = [Ev.HIDGetReport 5 3 0xf2 18,
         Ev.HIDSetReport 5 3 0xf5 [0x00, 0x00, 0x11, 0x22, 0x33, 0x44, 0x55, 0x66] 8,
         Ev.addControllerPairing 3 [0xAA, 0xBB, 0xCC, 0xDD, 0xEE, 0xFF]
           [0, 0, 0, 0, 0, 0, 0, 0, 0, 0, 0, 0, 0, 0, 0, 0]
           "Nintendo RVL-CNT-01-UC" 0x054c 0x0268] :=
  hidAttachCallback_pairing_sequence envOk ds3Device activeState
    [0xAA, 0xBB, 0xCC, 0xDD, 0xEE, 0xFF] [0x11, 0x22, 0x33, 0x44, 0x55, 0x66]
    (by decide) (by decide) rfl (by decide) (by decide) (by decide) (by decide)

/-- C4: on a detach event, and on an attach event of a device whose byte-swapped
(vid, pid) is not (0x054c, 0x0268), `hidAttachCallback` makes no call at all (no
get-report, set-report or `addControllerPairing`), leaves the state as it was and
returns `HID_DEVICE_DETACH`. -/
theorem hidAttachCallback_filtered (env : Env) (device : HIDDevice)
    (event : HIDAttachEvent) (s : State)
    (h : event = HID_DEVICE_DETACH ∨
      (event = HID_DEVICE_ATTACH ∧
        (bswap16 device.vid, bswap16 device.pid) ≠ (0x054c, 0x0268))) :
    hidAttachCallback env device event s = (HID_DEVICE_DETACH, s) ∧
    emitted s (hidAttachCallback env device event s).2 = [] := by
  have key : hidAttachCallback env device event s = (HID_DEVICE_DETACH, s) := by
    unfold hidAttachCallback
    rcases h with h | ⟨h, hne⟩
    · simp [h]
    · have hno : ¬ (bswap16 device.vid = DS3_VID ∧ bswap16 device.pid = DS3_PID) := by
        rintro ⟨h1, h2⟩
        apply hne
        rw [h1, h2]
        rfl
      simp [h, hno]
  refine ⟨key, ?_⟩
  rw [key]
  simp [emitted]

theorem hidAttachCallback_filtered_witness :
    (hidAttachCallback envOk ds3Device HID_DEVICE_DETACH activeState
        = (HID_DEVICE_DETACH, activeState) ∧
      emitted activeState
        (hidAttachCallback envOk ds3Device HID_DEVICE_DETACH activeState).2 = []) ∧
    (hidAttachCallback envOk otherDevice HID_DEVICE_ATTACH activeState
        = (HID_DEVICE_DETACH, activeState) ∧
      emitted activeState
        (hidAttachCallback envOk otherDevice HID_DEVICE_ATTACH activeState).2 = []) :=
  ⟨hidAttachCallback_filtered envOk ds3Device HID_DEVICE_DETACH activeState (Or.inl rfl),
   hidAttachCallback_filtered envOk otherDevice HID_DEVICE_ATTACH activeState
     (Or.inr ⟨rfl, by decide⟩)⟩

/-- C5: on a matching attach event, a negative get-report status means that no
set-report and no `addControllerPairing` call is made, and (after a successful
read) a negative set-report status means that no `addControllerPairing` call is
made; either way the result is `HID_DEVICE_DETACH`. -/
theorem hidAttachCallback_codec_failure_terminal (env : Env) (device : HIDDevice)
    (s : State)
    (hvid : bswap16 device.vid = 0x054c) (hpid : bswap16 device.pid = 0x0268)
    (hL : s.controller_bda.length = 6) :
    ((env.HIDGetReport device.handle 3 0xf2 18).1 < 0 →
      (hidAttachCallback env device HID_DEVICE_ATTACH s).1 = HID_DEVICE_DETACH ∧
      (emitted s (hidAttachCallback env device HID_DEVICE_ATTACH s).2).filter
        Ev.isSetReport = [] ∧
      (emitted s (hidAttachCallback env device HID_DEVICE_ATTACH s).2).filter
        Ev.isAddPairing = []) ∧
    (0 ≤ (env.HIDGetReport device.handle 3 0xf2 18).1 →
      env.HIDSetReport device.handle 3 0xf5 ([0, 0] ++ s.controller_bda) 8 < 0 →
      (hidAttachCallback env device HID_DEVICE_ATTACH s).1 = HID_DEVICE_DETACH ∧
      (emitted s (hidAttachCallback env device HID_DEVICE_ATTACH s).2).filter
        Ev.isSetReport
        = [Ev.HIDSetReport device.handle 3 0xf5 ([0, 0] ++ s.controller_bda) 8] ∧
      (emitted s (hidAttachCallback env device HID_DEVICE_ATTACH s).2).filter
        Ev.isAddPairing = []) := by
  constructor
  · intro hget
    rw [hidAttachCallback_read_failed env device s hvid hpid hget, emitted_emits]
    exact ⟨rfl, rfl, rfl⟩
  · intro hget hset
    rw [hidAttachCallback_write_failed env device s hvid hpid hL hget hset, emitted_emits]
    exact ⟨rfl, rfl, rfl⟩

theorem hidAttachCallback_codec_failure_terminal_witness :
    ((hidAttachCallback envGetFails ds3Device HID_DEVICE_ATTACH activeState).1
        = HID_DEVICE_DETACH ∧
      (emitted activeState
        (hidAttachCallback envGetFails ds3Device HID_DEVICE_ATTACH activeState).2).filter
        Ev.isSetReport = [] ∧
      (emitted activeState
        (hidAttachCallback envGetFails ds3Device HID_DEVICE_ATTACH activeState).2).filter
        Ev.isAddPairing = []) ∧
    ((hidAttachCallback envSetFails ds3Device HID_DEVICE_ATTACH activeState).1
        = HID_DEVICE_DETACH ∧
      (emitted activeState
        (hidAttachCallback envSetFails ds3Device HID_DEVICE_ATTACH activeState).2).filter
        Ev.isSetReport
        = [Ev.HIDSetReport 5 3 0xf5 [0, 0, 0x11, 0x22, 0x33, 0x44, 0x55, 0x66] 8] ∧
      (emitted activeState
        (hidAttachCallback envSetFails ds3Device HID_DEVICE_ATTACH activeState).2).filter
        Ev.isAddPairing = []) :=
  ⟨(hidAttachCallback_codec_failure_terminal envGetFails ds3Device activeState
      (by decide) (by decide) (by decide)).1 (by decide),
   (hidAttachCallback_codec_failure_terminal envSetFails ds3Device activeState
      (by decide) (by decide) (by decide)).2 (by decide) (by decide)⟩

/-- C9: with `addControllerPairing` answering -1 after a successful read and write,
`hidAttachCallback` still prints "Paired!" as its last message, prints no failure
message, and returns `HID_DEVICE_DETACH`; the status of the pairing call is not
inspected. -/
theorem hidAttachCallback_pairing_failure_unreported :
    envPairingFails.addControllerPairing 3 [0xAA, 0xBB, 0xCC, 0xDD, 0xEE, 0xFF]
      (List.replicate 16 0) "Nintendo RVL-CNT-01-UC" 0x054c 0x0268 = -1 ∧
    hidAttachCallback envPairingFails ds3Device HID_DEVICE_ATTACH activeState
      = (HID_DEVICE_DETACH, activeState.emits
          [Ev.HIDGetReport 5 3 0xf2 18,
           Ev.WHBLogPrintf "DualShock 3 (%02x:%02x:%02x:%02x:%02x:%02x) connected"
             [0xAA, 0xBB, 0xCC, 0xDD, 0xEE, 0xFF],
           Ev.WHBLogPrintf "Setting master address..." [],
           Ev.WHBLogConsoleDraw,
           Ev.HIDSetReport 5 3 0xf5 [0, 0, 0x11, 0x22, 0x33, 0x44, 0x55, 0x66] 8,
           Ev.WHBLogPrintf "Adding pairing..." [],
           Ev.WHBLogConsoleDraw,
           Ev.addControllerPairing 3 [0xAA, 0xBB, 0xCC, 0xDD, 0xEE, 0xFF]
             (List.replicate 16 0) "Nintendo RVL-CNT-01-UC" 0x054c 0x0268,
           Ev.WHBLogPrintf "Paired!" [],
           Ev.WHBLogConsoleDraw]) := by
  refine ⟨rfl, ?_⟩
  rw [hidAttachCallback_paired envPairingFails ds3Device activeState (by decide)
    (by decide) (by decide) (by decide) (by decide)]
  rfl

/-- C10, as the claim states it, fails: when the get-report call answers 5 (fewer
than 18 bytes), `ds3ReadBDA` returns 5, which is not negative, delivers an
address, and `hidAttachCallback` goes on to the set-report and
`addControllerPairing` calls. -/
theorem ds3ReadBDA_short_read_counterexample :
    (envShortRead.HIDGetReport 5 3 0xf2 18).1 = 5 ∧
    (ds3ReadBDA envShortRead 5 (List.replicate 6 0) activeState).1
      = (5, [0xAA, 0, 0, 0, 0, 0]) ∧
    ¬ (ds3ReadBDA envShortRead 5 (List.replicate 6 0) activeState).1.1 < 0 ∧
    protocolCalls (emitted activeState
        (hidAttachCallback envShortRead ds3Device HID_DEVICE_ATTACH activeState).2)
      = [Ev.HIDGetReport 5 3 0xf2 18,
         Ev.HIDSetReport 5 3 0xf5 [0, 0, 0x11, 0x22, 0x33, 0x44, 0x55, 0x66] 8,
         Ev.addControllerPairing 3 [0xAA, 0, 0, 0, 0, 0] (List.replicate 16 0)
           "Nintendo RVL-CNT-01-UC" 0x054c 0x0268] := by
  have hout : (ds3ReadBDA envShortRead 5 (List.replicate 6 0) activeState).1
      = (5, [0xAA, 0, 0, 0, 0, 0]) := by
    apply Prod.ext
    · rw [ds3ReadBDA_res]; rfl
    · rw [ds3ReadBDA_out envShortRead 5 _ activeState (by decide) (by decide)]; rfl
  refine ⟨rfl, hout, ?_, ?_⟩
  · rw [hout]; decide
  · rw [hidAttachCallback_paired envShortRead ds3Device activeState (by decide)
      (by decide) (by decide) (by decide) (by decide), emitted_emits]
    rfl

/-- C10, amended: a short read is not a failure. For every non-negative status
`st < 18` of the get-report call, `ds3ReadBDA` returns `st` itself and delivers
bytes [4,10) of its zeroed 18-byte buffer as the call overwrote it, and on a
matching attach event `hidAttachCallback` goes on to make the set-report call. -/
theorem ds3ReadBDA_short_read_accepted (env : Env) (device : HIDDevice) (s : State)
    (outBDA : List Nat) (st : Int)
    (hvid : bswap16 device.vid = 0x054c) (hpid : bswap16 device.pid = 0x0268)
    (hL : s.controller_bda.length = 6) (hout : outBDA.length = 6)
    (hst : (env.HIDGetReport device.handle 3 0xf2 18).1 = st)
    (h0 : 0 ≤ st) (_h18 : st < 18) :
    (ds3ReadBDA env device.handle outBDA s).1
      = (st, ((fill (List.replicate 18 0)
          (env.HIDGetReport device.handle 3 0xf2 18).2).drop 4).take 6) ∧
    ¬ (ds3ReadBDA env device.handle outBDA s).1.1 < 0 ∧
    (emitted s (hidAttachCallback env device HID_DEVICE_ATTACH s).2).filter Ev.isSetReport
      = [Ev.HIDSetReport device.handle 3 0xf5 ([0, 0] ++ s.controller_bda) 8] := by
  have hget : 0 ≤ (env.HIDGetReport device.handle HID_REPORT_FEATURE 0xf2 18).1 := by
    change 0 ≤ (env.HIDGetReport device.handle 3 0xf2 18).1
    rw [hst]; exact h0
  have hres : (ds3ReadBDA env device.handle outBDA s).1.1 = st := by
    rw [ds3ReadBDA_res]; exact hst
  refine ⟨?_, ?_, ?_⟩
  · apply Prod.ext
    · exact hres
    · exact ds3ReadBDA_out env device.handle outBDA s hout hget
  · rw [hres]; exact not_lt.mpr h0
  · by_cases hset : env.HIDSetReport device.handle HID_REPORT_FEATURE 0xf5
        ([0, 0] ++ s.controller_bda) 8 < 0
    · rw [hidAttachCallback_write_failed env device s hvid hpid hL hget hset,
        emitted_emits]
      rfl
    · rw [hidAttachCallback_paired env device s hvid hpid hL hget (not_lt.mp hset),
        emitted_emits]
      rfl

theorem ds3ReadBDA_short_read_accepted_witness :
    (ds3ReadBDA envShortRead ds3Device.handle (List.replicate 6 0) activeState).1
      = (5, ((fill (List.replicate 18 0)
          (envShortRead.HIDGetReport ds3Device.handle 3 0xf2 18).2).drop 4).take 6) ∧
    ¬ (ds3ReadBDA envShortRead ds3Device.handle (List.replicate 6 0) activeState).1.1 < 0 ∧
    (emitted activeState
        (hidAttachCallback envShortRead ds3Device HID_DEVICE_ATTACH activeState).2).filter
        Ev.isSetReport
      = [Ev.HIDSetReport ds3Device.handle 3 0xf5 ([0, 0] ++ activeState.controller_bda) 8] :=
  ds3ReadBDA_short_read_accepted envShortRead ds3Device activeState (List.replicate 6 0) 5
    (by decide) (by decide) (by decide) (by decide) rfl (by decide) (by decide)

/-! ## The sampling loop -/

theorem held_eq_decide (hold mask : Nat) :
    held hold mask = decide (hold &&& mask ≠ 0) := by
  unfold held
  by_cases h : hold &&& mask = 0 <;> simp [h]

/-- The test of line 127 is the claim's confirm test for the primary source. -/
theorem specConfirmHeld_vpad (P : PadConsts) (chan : Nat) (status : VPADStatus) :
    specConfirmHeld P (Ev.VPADRead chan status) = held status.hold P.VPAD_BUTTON_A := by
  rw [held_eq_decide]
  rfl

/-- The branch of lines 136-150 is the claim's confirm test for an auxiliary
source. -/
theorem specConfirmHeld_kpad (P : PadConsts) (chan : Nat) (st : KPADStatus) :
    specConfirmHeld P (Ev.KPADRead chan st)
      = if proLayout P st = true then held st.proHold P.WPAD_PRO_BUTTON_A
        else held st.hold P.WPAD_BUTTON_A := by
  by_cases h : st.extensionType = P.WPAD_EXT_CLASSIC ∨
      st.extensionType = P.WPAD_EXT_PRO_CONTROLLER ∨
      st.extensionType = P.WPAD_EXT_MPLUS_CLASSIC
  · have hp : proLayout P st = true := by
      simpa [proLayout, or_assoc] using h
    rw [held_eq_decide, held_eq_decide]
    simp only [specConfirmHeld, h, hp, if_true, if_false]
  · have hp : ¬ proLayout P st = true := by
      simpa [proLayout, or_assoc] using h
    rw [held_eq_decide, held_eq_decide]
    simp only [specConfirmHeld, h, hp, if_false]
    simp


/-- What a run of the inner sampling loop does: it only reads, at most `n` times,
keeps the file-scope variables, and its flag is the incoming flag or a confirm
among the samples it read. -/
theorem confirmKpadLoop_spec (P : PadConsts) (env : Env) (n : Nat) :
    ∀ (i : Nat) (openMenu : Bool) (s : State),
      ∃ es : List Ev,
        (confirmKpadLoop P env n i openMenu s).2.trace = s.trace ++ es ∧
        es.all Ev.isRead = true ∧ es.length ≤ n ∧
        (confirmKpadLoop P env n i openMenu s).1 = (openMenu || es.any (specConfirmHeld P)) ∧
        (confirmKpadLoop P env n i openMenu s).2.controller_bda = s.controller_bda ∧
        (confirmKpadLoop P env n i openMenu s).2.btrmHandle = s.btrmHandle := by
  induction n with
  | zero =>
    intro i openMenu s
    exact ⟨[], by simp [confirmKpadLoop]⟩
  | succ n ih =>
    intro i openMenu s
    obtain ⟨es, h1, h2, h3, h4, h5, h6⟩ := ih (i + 1) openMenu (kpadRead env i s).2
    unfold confirmKpadLoop
    by_cases hp : proLayout P (env.KPADRead s.polls i) = true
    · by_cases hh : held (env.KPADRead s.polls i).proHold P.WPAD_PRO_BUTTON_A = true
      · refine ⟨[Ev.KPADRead i (env.KPADRead s.polls i)], ?_⟩
        simp [kpadRead, hp, hh, Ev.isRead, specConfirmHeld_kpad]
      · refine ⟨Ev.KPADRead i (env.KPADRead s.polls i) :: es, ?_⟩
        simp only [kpadRead, hp, hh, if_true, if_false, Bool.false_eq_true] at h1 h4 h5 h6 ⊢
        rw [h1, h4, h5, h6]
        simp [Ev.isRead, specConfirmHeld_kpad, hp, hh, h2, h3]
    · by_cases hh : held (env.KPADRead s.polls i).hold P.WPAD_BUTTON_A = true
      · refine ⟨[Ev.KPADRead i (env.KPADRead s.polls i)], ?_⟩
        simp [kpadRead, hp, hh, Ev.isRead, specConfirmHeld_kpad]
      · refine ⟨Ev.KPADRead i (env.KPADRead s.polls i) :: es, ?_⟩
        simp only [kpadRead, hp, hh, if_true, if_false, Bool.false_eq_true] at h1 h4 h5 h6 ⊢
        rw [h1, h4, h5, h6]
        simp [Ev.isRead, specConfirmHeld_kpad, hp, hh, h2, h3]

/-- What a run of the outer sampling loop does: it only reads, at most `5 * n`
times, keeps the file-scope variables, and its flag is the incoming flag or a
confirm among the samples it read. -/
theorem confirmLoop_spec (P : PadConsts) (env : Env) (n : Nat) :
    ∀ (openMenu : Bool) (s : State),
      ∃ es : List Ev,
        (confirmLoop P env n openMenu s).2.trace = s.trace ++ es ∧
        es.all Ev.isRead = true ∧ es.length ≤ 5 * n ∧
        (confirmLoop P env n openMenu s).1 = (openMenu || es.any (specConfirmHeld P)) ∧
        (confirmLoop P env n openMenu s).2.controller_bda = s.controller_bda ∧
        (confirmLoop P env n openMenu s).2.btrmHandle = s.btrmHandle := by
  induction n with
  | zero =>
    intro openMenu s
    exact ⟨[], by simp [confirmLoop]⟩
  | succ n ih =>
    intro openMenu s
    unfold confirmLoop
    by_cases hh : held (env.VPADRead s.polls P.VPAD_CHAN_0).hold P.VPAD_BUTTON_A = true
    · refine ⟨[Ev.VPADRead P.VPAD_CHAN_0 (env.VPADRead s.polls P.VPAD_CHAN_0)], ?_⟩
      simp [vpadRead, hh, Ev.isRead, specConfirmHeld_vpad]
      omega
    · obtain ⟨es1, k1, k2, k3, k4, k5, k6⟩ :=
        confirmKpadLoop_spec P env 4 0 openMenu (vpadRead P env s).2
      obtain ⟨es2, h1, h2, h3, h4, h5, h6⟩ :=
        ih (confirmKpadLoop P env 4 0 openMenu (vpadRead P env s).2).1
          (confirmKpadLoop P env 4 0 openMenu (vpadRead P env s).2).2
      refine ⟨Ev.VPADRead P.VPAD_CHAN_0 (env.VPADRead s.polls P.VPAD_CHAN_0)
        :: (es1 ++ es2), ?_⟩
      simp only [vpadRead, hh, if_false, Bool.false_eq_true] at k1 k4 k5 k6 h1 h4 h5 h6 ⊢
      rw [h1, h4, h5, h6, k1, k4, k5, k6]
      simp [Ev.isRead, specConfirmHeld_vpad, hh, h2, k2, Bool.or_assoc]
      omega

/-! ## The sampling loop against the scripted window -/

theorem confirmKpadLoop_step_quiet (P : PadConsts) (env : Env) (n i : Nat)
    (openMenu : Bool) (s : State)
    (h : specConfirmHeld P (Ev.KPADRead i (env.KPADRead s.polls i)) = false) :
    confirmKpadLoop P env (n + 1) i openMenu s
      = confirmKpadLoop P env n (i + 1) openMenu (kpadRead env i s).2 := by
  rw [specConfirmHeld_kpad] at h
  rw [confirmKpadLoop]
  by_cases hp : proLayout P (env.KPADRead s.polls i) = true
  · simp only [hp, if_true] at h
    simp [kpadRead, hp, h]
  · simp [hp] at h
    simp [kpadRead, hp, h]

theorem confirmKpadLoop_step_hit (P : PadConsts) (env : Env) (n i : Nat)
    (openMenu : Bool) (s : State)
    (h : specConfirmHeld P (Ev.KPADRead i (env.KPADRead s.polls i)) = true) :
    confirmKpadLoop P env (n + 1) i openMenu s = (true, (kpadRead env i s).2) := by
  rw [specConfirmHeld_kpad] at h
  rw [confirmKpadLoop]
  by_cases hp : proLayout P (env.KPADRead s.polls i) = true
  · simp only [hp, if_true] at h
    simp [kpadRead, hp, h]
  · simp [hp] at h
    simp [kpadRead, hp, h]

theorem confirmKpadLoop_quiet (P : PadConsts) (env : Env) (n : Nat) :
    ∀ (i : Nat) (openMenu : Bool) (s : State),
      (∀ j, j < n →
        specConfirmHeld P (Ev.KPADRead (i + j) (env.KPADRead (s.polls + j) (i + j)))
          = false) →
      confirmKpadLoop P env n i openMenu s
        = (openMenu, { s with
            polls := s.polls + n,
            trace := s.trace ++ (List.range n).map
              (fun j => Ev.KPADRead (i + j) (env.KPADRead (s.polls + j) (i + j))) }) := by
  induction n with
  | zero =>
    intro i openMenu s _
    simp [confirmKpadLoop]
  | succ n ih =>
    intro i openMenu s h
    rw [confirmKpadLoop_step_quiet P env n i openMenu s (by simpa using h 0 (by omega))]
    rw [ih (i + 1) openMenu (kpadRead env i s).2 (by
      intro j hj
      have := h (j + 1) (by omega)
      simpa [kpadRead, Nat.add_assoc, Nat.add_comm 1 j] using this)]
    simp [kpadRead, List.range_succ_eq_map, Nat.add_assoc, Nat.add_comm 1, Function.comp_def]

theorem confirmKpadLoop_hit (P : PadConsts) (env : Env) (n : Nat) :
    ∀ (i : Nat) (openMenu : Bool) (s : State) (j : Nat), j < n →
      (∀ j', j' < j →
        specConfirmHeld P (Ev.KPADRead (i + j') (env.KPADRead (s.polls + j') (i + j')))
          = false) →
      specConfirmHeld P (Ev.KPADRead (i + j) (env.KPADRead (s.polls + j) (i + j)))
        = true →
      confirmKpadLoop P env n i openMenu s
        = (true, { s with
            polls := s.polls + (j + 1),
            trace := s.trace ++ (List.range (j + 1)).map
              (fun j => Ev.KPADRead (i + j) (env.KPADRead (s.polls + j) (i + j))) }) := by
  induction n with
  | zero =>
    intro i openMenu s j hj
    omega
  | succ n ih =>
    intro i openMenu s j hj hq hc
    cases j with
    | zero =>
      rw [confirmKpadLoop_step_hit P env n i openMenu s (by simpa using hc)]
      simp [kpadRead, List.range_succ_eq_map]
    | succ j =>
      rw [confirmKpadLoop_step_quiet P env n i openMenu s (by simpa using hq 0 (by omega))]
      rw [ih (i + 1) openMenu (kpadRead env i s).2 j (by omega) (by
        intro j' hj'
        have := hq (j' + 1) (by omega)
        simpa [kpadRead, Nat.add_assoc, Nat.add_comm 1 j'] using this) (by
        simpa [kpadRead, Nat.add_assoc, Nat.add_comm 1 j] using hc)]
      simp [kpadRead, List.range_succ_eq_map (j + 1), Nat.add_assoc, Nat.add_comm 1,
        Function.comp_def]

theorem scriptRead_shift (P : PadConsts) (env : Env) (p0 k : Nat) :
    scriptRead P env (p0 + 5) k = scriptRead P env p0 (k + 5) := by
  unfold scriptRead
  have h1 : (k + 5) % 5 = k % 5 := by omega
  have h2 : p0 + 5 + k = p0 + (k + 5) := by omega
  rw [h1, h2]

theorem confirmLoop_step_hit (P : PadConsts) (env : Env) (n : Nat) (openMenu : Bool)
    (s : State) (h : scriptConfirm P env s.polls 0 = true) :
    confirmLoop P env (n + 1) openMenu s = (true, (vpadRead P env s).2) := by
  have h' : held (env.VPADRead s.polls P.VPAD_CHAN_0).hold P.VPAD_BUTTON_A = true := by
    rw [← specConfirmHeld_vpad P P.VPAD_CHAN_0]
    simpa [scriptConfirm, scriptRead] using h
  rw [confirmLoop]
  simp [vpadRead, h']

theorem confirmLoop_step_quiet (P : PadConsts) (env : Env) (n : Nat) (openMenu : Bool)
    (s : State) (h : scriptConfirm P env s.polls 0 = false) :
    confirmLoop P env (n + 1) openMenu s
      = confirmLoop P env n
          (confirmKpadLoop P env 4 0 openMenu (vpadRead P env s).2).1
          (confirmKpadLoop P env 4 0 openMenu (vpadRead P env s).2).2 := by
  have h' : held (env.VPADRead s.polls P.VPAD_CHAN_0).hold P.VPAD_BUTTON_A = false := by
    rw [← specConfirmHeld_vpad P P.VPAD_CHAN_0]
    simpa [scriptConfirm, scriptRead] using h
  rw [confirmLoop]
  simp [vpadRead, h']

/-- The auxiliary reads of one iteration are positions 1 to 4 of the script. -/
theorem scriptRead_aux (P : PadConsts) (env : Env) (p0 j : Nat) (hj : j < 4) :
    Ev.KPADRead (0 + j) (env.KPADRead (p0 + 1 + j) (0 + j)) = scriptRead P env p0 (j + 1) := by
  unfold scriptRead
  have h1 : (j + 1) % 5 = j + 1 := by omega
  have h2 : p0 + 1 + j = p0 + (j + 1) := by omega
  simp [h1, h2]

/-- One iteration of the sampling loop in which no sample reports confirm. -/
theorem confirmLoop_block_quiet (P : PadConsts) (env : Env) (n : Nat) (openMenu : Bool)
    (s : State) (h : ∀ k, k < 5 → scriptConfirm P env s.polls k = false) :
    confirmLoop P env (n + 1) openMenu s
      = confirmLoop P env n openMenu { s with
          polls := s.polls + 5,
          trace := s.trace ++ (List.range 5).map (scriptRead P env s.polls) } := by
  rw [confirmLoop_step_quiet P env n openMenu s (h 0 (by omega))]
  rw [confirmKpadLoop_quiet P env 4 0 openMenu (vpadRead P env s).2 (by
    intro j hj
    have := h (j + 1) (by omega)
    rw [scriptConfirm, ← scriptRead_aux P env s.polls j hj] at this
    exact this)]
  have e1 : ∀ j, j < 4 → Ev.KPADRead (0 + j) (env.KPADRead (s.polls + 1 + j) (0 + j))
      = scriptRead P env s.polls (j + 1) := fun j hj => scriptRead_aux P env s.polls j hj
  have e0 : Ev.VPADRead P.VPAD_CHAN_0 (env.VPADRead s.polls P.VPAD_CHAN_0)
      = scriptRead P env s.polls 0 := by simp [scriptRead]
  have hl : (List.range 5).map (scriptRead P env s.polls)
      = [scriptRead P env s.polls 0, scriptRead P env s.polls 1, scriptRead P env s.polls 2,
         scriptRead P env s.polls 3, scriptRead P env s.polls 4] := rfl
  have hk : (List.range 4).map
      (fun j => Ev.KPADRead (0 + j) (env.KPADRead ((vpadRead P env s).2.polls + j) (0 + j)))
      = [scriptRead P env s.polls 1, scriptRead P env s.polls 2,
         scriptRead P env s.polls 3, scriptRead P env s.polls 4] := by
    have := e1 0 (by omega)
    have := e1 1 (by omega)
    have := e1 2 (by omega)
    have := e1 3 (by omega)
    simp_all [vpadRead, List.range_succ_eq_map]
  rw [hk, hl]
  simp [vpadRead, e0, Nat.add_assoc]

theorem confirmLoop_quiet (P : PadConsts) (env : Env) (n : Nat) :
    ∀ (openMenu : Bool) (s : State),
      (∀ k, k < 5 * n → scriptConfirm P env s.polls k = false) →
      confirmLoop P env n openMenu s
        = (openMenu, { s with
            polls := s.polls + 5 * n,
            trace := s.trace ++ (List.range (5 * n)).map (scriptRead P env s.polls) }) := by
  induction n with
  | zero =>
    intro openMenu s _
    simp [confirmLoop]
  | succ n ih =>
    intro openMenu s h
    rw [confirmLoop_block_quiet P env n openMenu s (fun k hk => h k (by omega))]
    rw [ih openMenu _ (by
      intro k hk
      have := h (k + 5) (by omega)
      simpa [scriptConfirm, scriptRead_shift] using this)]
    have hr : List.range (5 * (n + 1)) = List.range 5 ++ (List.range (5 * n)).map (5 + ·) := by
      rw [← List.range_add]
      congr 1
      omega
    rw [hr]
    simp [scriptRead_shift, Function.comp_def, Nat.add_assoc, Nat.add_comm 5]
    omega

/-- One iteration of the sampling loop in which the sample at position `N < 5` is
the first to report confirm: the flag is set for good and the reads up to that
sample are the scripted ones. -/
theorem confirmLoop_block_hit (P : PadConsts) (env : Env) (n : Nat) (openMenu : Bool)
    (s : State) (N : Nat) (hN : N < 5)
    (hq : ∀ k, k < N → scriptConfirm P env s.polls k = false)
    (hc : scriptConfirm P env s.polls N = true) :
    (confirmLoop P env (n + 1) openMenu s).1 = true ∧
    ∃ rest : List Ev,
      (confirmLoop P env (n + 1) openMenu s).2.trace
        = s.trace ++ (List.range (N + 1)).map (scriptRead P env s.polls) ++ rest ∧
      (N = 0 → rest = []) := by
  cases N with
  | zero =>
    rw [confirmLoop_step_hit P env n openMenu s hc]
    refine ⟨rfl, [], ?_, fun _ => rfl⟩
    simp [vpadRead, scriptRead, List.range_succ_eq_map]
  | succ c =>
    rw [confirmLoop_step_quiet P env n openMenu s (hq 0 (by omega))]
    have hin := confirmKpadLoop_hit P env 4 0 openMenu (vpadRead P env s).2 c (by omega)
      (by
        intro j hj
        have := hq (j + 1) (by omega)
        rw [scriptConfirm, ← scriptRead_aux P env s.polls j (by omega)] at this
        exact this)
      (by
        have := hc
        rw [scriptConfirm, ← scriptRead_aux P env s.polls c (by omega)] at this
        exact this)
    rw [hin]
    obtain ⟨es, h1, _, _, h4, _, _⟩ := confirmLoop_spec P env n true
      { (vpadRead P env s).2 with
        polls := (vpadRead P env s).2.polls + (c + 1),
        trace := (vpadRead P env s).2.trace ++ (List.range (c + 1)).map
          (fun j => Ev.KPADRead (0 + j)
            (env.KPADRead ((vpadRead P env s).2.polls + j) (0 + j))) }
    refine ⟨by rw [h4]; rfl, es, ?_, fun h => by omega⟩
    rw [h1]
    have hmap : (List.range (c + 1)).map
        (fun j => Ev.KPADRead (0 + j) (env.KPADRead ((vpadRead P env s).2.polls + j) (0 + j)))
        = (List.range (c + 1)).map (fun j => scriptRead P env s.polls (j + 1)) := by
      apply List.map_congr_left
      intro j hj
      rw [List.mem_range] at hj
      exact scriptRead_aux P env s.polls j (by omega)
    have e0 : Ev.VPADRead P.VPAD_CHAN_0 (env.VPADRead s.polls P.VPAD_CHAN_0)
        = scriptRead P env s.polls 0 := by simp [scriptRead]
    simp only [hmap]
    rw [List.range_succ_eq_map (c + 1)]
    simp [vpadRead, e0, Function.comp_def]

theorem confirmLoop_hit (P : PadConsts) (env : Env) (n : Nat) :
    ∀ (openMenu : Bool) (s : State) (N : Nat), N < 5 * n →
      (∀ k, k < N → scriptConfirm P env s.polls k = false) →
      scriptConfirm P env s.polls N = true →
      (confirmLoop P env n openMenu s).1 = true ∧
      ∃ rest : List Ev,
        (confirmLoop P env n openMenu s).2.trace
          = s.trace ++ (List.range (N + 1)).map (scriptRead P env s.polls) ++ rest ∧
        (N % 5 = 0 → rest = []) := by
  induction n with
  | zero =>
    intro openMenu s N hN
    omega
  | succ n ih =>
    intro openMenu s N hN hq hc
    by_cases h5 : N < 5
    · obtain ⟨hf, rest, ht, hr⟩ := confirmLoop_block_hit P env n openMenu s N h5 hq hc
      exact ⟨hf, rest, ht, fun h => hr (by omega)⟩
    · obtain ⟨M, rfl⟩ : ∃ M, N = 5 + M := ⟨N - 5, by omega⟩
      rw [confirmLoop_block_quiet P env n openMenu s (fun k hk => hq k (by omega))]
      obtain ⟨hf, rest, ht, hr⟩ := ih openMenu
        { s with polls := s.polls + 5,
                 trace := s.trace ++ (List.range 5).map (scriptRead P env s.polls) }
        M (by omega)
        (by
          intro k hk
          have := hq (k + 5) (by omega)
          simpa [scriptConfirm, scriptRead_shift] using this)
        (by
          have := hc
          rw [Nat.add_comm 5 M] at this
          simpa [scriptConfirm, scriptRead_shift] using this)
      refine ⟨hf, rest, ?_, fun h => hr (by omega)⟩
      rw [ht]
      have hrange : List.range (5 + M + 1)
          = List.range 5 ++ (List.range (M + 1)).map (5 + ·) := by
        rw [← List.range_add, Nat.add_assoc]
      rw [hrange]
      simp [scriptRead_shift, Function.comp_def, Nat.add_assoc, Nat.add_comm 5]

theorem samplePhase_spec (P : PadConsts) (env : Env) (s : State) :
    (samplePhase P env (acquireInput s)).2.trace
      = s.trace ++ acquireCalls ++ samples P env s ∧
    (samples P env s).all Ev.isRead = true ∧ (samples P env s).length ≤ 25 ∧
    (samplePhase P env (acquireInput s)).1 = (samples P env s).any (specConfirmHeld P) := by
  obtain ⟨es, h1, h2, h3, h4, _, _⟩ := confirmLoop_spec P env 5 false (acquireInput s)
  have hs : samples P env s = es := emitted_append _ _ es h1
  rw [hs]
  refine ⟨?_, h2, by omega, ?_⟩
  · unfold samplePhase
    rw [h1]
    rfl
  · unfold samplePhase
    rw [h4]
    simp

theorem isRead_not_service (e : Ev) (h : e.isRead = true) :
    (!e.isConsole && !e.isRegistrar && !e.isHID) = true := by
  cases e <;> simp_all [Ev.isRead, Ev.isConsole, Ev.isRegistrar, Ev.isHID]

theorem all_reads_not_service (es : List Ev) (h : es.all Ev.isRead = true) :
    es.all (fun e => !e.isConsole && !e.isRegistrar && !e.isHID) = true := by
  rw [List.all_eq_true] at h ⊢
  intro e he
  exact isRead_not_service e (h e he)

/-- C8: the sampling phase of `handle_pairing_menu`, against a scripted sequence
of samples. The window is 5 iterations of one primary read followed by the
auxiliary channels 0 to 3 (`scriptRead`, positions 0 to 24), and confirm held is
`VPAD_BUTTON_A` for the primary source, `WPAD_PRO_BUTTON_A` in `pro.hold` for
the classic, pro controller and motion-plus classic extension types and
`WPAD_BUTTON_A` in `hold` otherwise (`specConfirmHeld`).
If none of the 25 scripted samples reports confirm held, exactly these 25
samples are read, `openMenu` is false and the function returns after
`VPADShutdown` and `KPADShutdown` without any console, registrar or HID call.
If the samples at positions below `N < 25` report not held and the sample at
position `N` reports confirm held, the reads up to position `N` are the scripted
ones and `openMenu` is true (a primary confirm also ends the reading).
Over the samples actually read: they are input reads only, at most 25, and
`openMenu` is true exactly when one of them reports confirm held. -/
theorem samplePhase_gate (P : PadConsts) (env : Env) (fuel : Nat) (s : State) :
    ((∀ k, k < 25 → scriptConfirm P env s.polls k = false) →
      samples P env s = (List.range 25).map (scriptRead P env s.polls) ∧
      (samplePhase P env (acquireInput s)).1 = false ∧
      handle_pairing_menu P env fuel s
        = some ((samplePhase P env (acquireInput s)).2.emits
            [Ev.VPADShutdown, Ev.KPADShutdown]) ∧
      ((samplePhase P env (acquireInput s)).2.emits
          [Ev.VPADShutdown, Ev.KPADShutdown]).trace
        = s.trace ++ acquireCalls ++ (List.range 25).map (scriptRead P env s.polls)
            ++ [Ev.VPADShutdown, Ev.KPADShutdown] ∧
      (acquireCalls ++ (List.range 25).map (scriptRead P env s.polls)
          ++ [Ev.VPADShutdown, Ev.KPADShutdown]).all
        (fun e => !e.isConsole && !e.isRegistrar && !e.isHID) = true) ∧
    (∀ N, N < 25 →
      (∀ k, k < N → scriptConfirm P env s.polls k = false) →
      scriptConfirm P env s.polls N = true →
      (samples P env s).take (N + 1)
        = (List.range (N + 1)).map (scriptRead P env s.polls) ∧
      (N % 5 = 0 →
        samples P env s = (List.range (N + 1)).map (scriptRead P env s.polls)) ∧
      (samplePhase P env (acquireInput s)).1 = true) ∧
    (samples P env s).all Ev.isRead = true ∧ (samples P env s).length ≤ 25 ∧
    (samplePhase P env (acquireInput s)).1 = (samples P env s).any (specConfirmHeld P) ∧
    ((samples P env s).all (fun e => !specConfirmHeld P e) = true →
      (samplePhase P env (acquireInput s)).1 = false ∧
      handle_pairing_menu P env fuel s
        = some ((samplePhase P env (acquireInput s)).2.emits
            [Ev.VPADShutdown, Ev.KPADShutdown]) ∧
      ((samplePhase P env (acquireInput s)).2.emits
          [Ev.VPADShutdown, Ev.KPADShutdown]).trace
        = s.trace ++ acquireCalls ++ samples P env s
            ++ [Ev.VPADShutdown, Ev.KPADShutdown] ∧
      (acquireCalls ++ samples P env s ++ [Ev.VPADShutdown, Ev.KPADShutdown]).all
        (fun e => !e.isConsole && !e.isRegistrar && !e.isHID) = true) := by
  obtain ⟨h1, h2, h3, h4⟩ := samplePhase_spec P env s
  have hdecline : (samplePhase P env (acquireInput s)).1 = false →
      handle_pairing_menu P env fuel s
        = some ((samplePhase P env (acquireInput s)).2.emits
            [Ev.VPADShutdown, Ev.KPADShutdown]) ∧
      ((samplePhase P env (acquireInput s)).2.emits
          [Ev.VPADShutdown, Ev.KPADShutdown]).trace
        = s.trace ++ acquireCalls ++ samples P env s
            ++ [Ev.VPADShutdown, Ev.KPADShutdown] ∧
      (acquireCalls ++ samples P env s ++ [Ev.VPADShutdown, Ev.KPADShutdown]).all
        (fun e => !e.isConsole && !e.isRegistrar && !e.isHID) = true := by
    intro hgate
    refine ⟨?_, ?_, ?_⟩
    · unfold handle_pairing_menu
      simp [hgate]
    · simp [State.emits, h1]
    · rw [List.all_append, List.all_append, all_reads_not_service _ h2]
      rfl
  refine ⟨?_, ?_, h2, h3, h4, ?_⟩
  · intro hq
    have hrun := confirmLoop_quiet P env 5 false (acquireInput s) hq
    have hs : samples P env s = (List.range 25).map (scriptRead P env s.polls) := by
      apply emitted_append
      unfold samplePhase
      rw [hrun]
      rfl
    have hgate : (samplePhase P env (acquireInput s)).1 = false := by
      unfold samplePhase
      rw [hrun]
    obtain ⟨d1, d2, d3⟩ := hdecline hgate
    rw [hs] at d2 d3
    exact ⟨hs, hgate, d1, d2, d3⟩
  · intro N hN hq hc
    obtain ⟨hf, rest, ht, hr⟩ := confirmLoop_hit P env 5 false (acquireInput s) N hN hq hc
    have hs : samples P env s
        = (List.range (N + 1)).map (scriptRead P env s.polls) ++ rest := by
      apply emitted_append
      unfold samplePhase
      rw [ht, List.append_assoc]
      rfl
    refine ⟨?_, ?_, hf⟩
    · rw [hs, List.take_left']
      simp
    · intro h0
      rw [hs, hr h0, List.append_nil]
  · intro hall
    have hno : (samples P env s).any (specConfirmHeld P) = false := by
      rw [List.any_eq_false]
      intro e he
      have := (List.all_eq_true.mp hall) e he
      simpa using this
    have hgate : (samplePhase P env (acquireInput s)).1 = false := by rw [h4, hno]
    exact ⟨hgate, hdecline hgate⟩

theorem samplePhase_gate_witness :
    ((samplePhase padConsts envNoConfirm (acquireInput State.init)).1 = false ∧
      (samplePhase padConsts envWrongLayout (acquireInput State.init)).1 = false) ∧
    ((samplePhase padConsts envLateConfirm (acquireInput State.init)).1 = true ∧
      (samplePhase padConsts envProConfirm (acquireInput State.init)).1 = true ∧
      (samplePhase padConsts envRemoteConfirm (acquireInput State.init)).1 = true) :=
  ⟨⟨((samplePhase_gate padConsts envNoConfirm 0 State.init).1 (by decide)).2.1,
    ((samplePhase_gate padConsts envWrongLayout 0 State.init).1 (by decide)).2.1⟩,
   ((samplePhase_gate padConsts envLateConfirm 0 State.init).2.1 5
      (by decide) (by decide) (by decide)).2.2,
   ((samplePhase_gate padConsts envProConfirm 0 State.init).2.1 12
      (by decide) (by decide) (by decide)).2.2,
   ((samplePhase_gate padConsts envRemoteConfirm 0 State.init).2.1 24
      (by decide) (by decide) (by decide)).2.2⟩

/-! ## Setup failures of the menu -/

/-- C7: when the gate opens and `openBtrm` answers a negative handle,
`handle_pairing_menu` returns for every bound on the active loop (the loop is not
entered), the calls it made are the input setup, the sampling reads, the console
banner, `openBtrm`, the failure report, `sleep(2)`, `VPADShutdown` and
`KPADShutdown`, in this order; no HID call (so neither `HIDSetup` nor
`HIDAddClient`) is among them and every input read belongs to the sampling
phase. -/
theorem handle_pairing_menu_openBtrm_fails (P : PadConsts) (env : Env) (fuel : Nat)
    (s : State)
    (hgate : (samplePhase P env (acquireInput s)).1 = true)
    (hbtrm : env.openBtrm < 0) :
    ∃ s' : State,
      handle_pairing_menu P env fuel s = some s' ∧
      emitted s s' = acquireCalls ++ samples P env s ++ consoleCalls ++
        [Ev.openBtrm, Ev.WHBLogPrintf "Failed to open btrm" [], Ev.WHBLogConsoleDraw,
         Ev.sleep 2, Ev.VPADShutdown, Ev.KPADShutdown] ∧
      (emitted s s').filter Ev.isHID = [] ∧
      (emitted s s').filter Ev.isRead = samples P env s := by
  obtain ⟨h1, h2, _, _⟩ := samplePhase_spec P env s
  have hnot : (samples P env s).filter Ev.isHID = [] := by
    rw [List.filter_eq_nil_iff]
    intro e he
    have h := isRead_not_service e ((List.all_eq_true.mp h2) e he)
    simp only [Bool.and_eq_true, Bool.not_eq_true'] at h
    simp [h.2]
  have hreads : (samples P env s).filter Ev.isRead = samples P env s := by
    rw [List.filter_eq_self]
    exact List.all_eq_true.mp h2
  have hem : ∀ s' : State, s'.trace = s.trace ++ (acquireCalls ++ samples P env s ++
      consoleCalls ++ [Ev.openBtrm, Ev.WHBLogPrintf "Failed to open btrm" [],
        Ev.WHBLogConsoleDraw, Ev.sleep 2, Ev.VPADShutdown, Ev.KPADShutdown]) →
      emitted s s' = acquireCalls ++ samples P env s ++ consoleCalls ++
        [Ev.openBtrm, Ev.WHBLogPrintf "Failed to open btrm" [], Ev.WHBLogConsoleDraw,
         Ev.sleep 2, Ev.VPADShutdown, Ev.KPADShutdown] := fun s' h => emitted_append s s' _ h
  have hrun : ∃ s' : State, handle_pairing_menu P env fuel s = some s' ∧
      s'.trace = s.trace ++ (acquireCalls ++ samples P env s ++ consoleCalls ++
        [Ev.openBtrm, Ev.WHBLogPrintf "Failed to open btrm" [], Ev.WHBLogConsoleDraw,
         Ev.sleep 2, Ev.VPADShutdown, Ev.KPADShutdown]) := by
    unfold handle_pairing_menu
    simp only [hgate, Bool.not_true, Bool.false_eq_true, if_false]
    unfold runMenu
    simp only [hbtrm, if_true]
    refine ⟨_, rfl, ?_⟩
    simp [State.emits, State.emit, openConsole, h1, consoleCalls]
  obtain ⟨s', hs', htr⟩ := hrun
  refine ⟨s', hs', hem s' htr, ?_, ?_⟩
  · rw [hem s' htr]
    simp only [List.filter_append, hnot]
    rfl
  · rw [hem s' htr]
    simp only [List.filter_append, hreads]
    simp [acquireCalls, consoleCalls, Ev.isRead]

theorem handle_pairing_menu_openBtrm_fails_witness :
    ∃ s' : State,
      handle_pairing_menu padConsts envBtrmFails 0 State.init = some s' ∧
      emitted State.init s' = acquireCalls ++ samples padConsts envBtrmFails State.init
        ++ consoleCalls ++
        [Ev.openBtrm, Ev.WHBLogPrintf "Failed to open btrm" [], Ev.WHBLogConsoleDraw,
         Ev.sleep 2, Ev.VPADShutdown, Ev.KPADShutdown] ∧
      (emitted State.init s').filter Ev.isHID = [] ∧
      (emitted State.init s').filter Ev.isRead = samples padConsts envBtrmFails State.init :=
  handle_pairing_menu_openBtrm_fails padConsts envBtrmFails 0 State.init
    (by decide) (by decide)

/-- C6 fails on three setup-failure paths. The traces below start after the eight
input-setup calls and the single sampling read (confirm held at once). After
`openBtrm` succeeded (handle 3): when `readControllerBDAddr` fails the function
returns without `closeBtrm`; when `HIDSetup` fails it returns without `closeBtrm`
and without `KPADShutdown`; when `HIDAddClient` fails it returns without
`closeBtrm` and without `HIDTeardown`. -/
theorem handle_pairing_menu_leaks_on_setup_failure :
    (handle_pairing_menu padConsts envLocalAddrFails 0 State.init).map
        (fun s => s.trace.drop 9)
      = some (consoleCalls ++
          [Ev.openBtrm, Ev.readControllerBDAddr 3,
           Ev.WHBLogPrintf "Failed to read local bda" [], Ev.WHBLogConsoleDraw,
           Ev.sleep 2, Ev.VPADShutdown, Ev.KPADShutdown]) ∧
    (handle_pairing_menu padConsts envHIDSetupFails 0 State.init).map
        (fun s => s.trace.drop 9)
      = some (consoleCalls ++
          [Ev.openBtrm, Ev.readControllerBDAddr 3,
           Ev.WHBLogPrintf "Local BDA is: %02x:%02x:%02x:%02x:%02x:%02x"
             [0x11, 0x22, 0x33, 0x44, 0x55, 0x66],
           Ev.WHBLogPrintf "" [], Ev.WHBLogConsoleDraw,
           Ev.HIDSetup,
           Ev.WHBLogPrintf "Failed to setup HID" [], Ev.WHBLogConsoleDraw,
           Ev.sleep 2, Ev.VPADShutdown]) ∧
    (handle_pairing_menu padConsts envHIDAddClientFails 0 State.init).map
        (fun s => s.trace.drop 9)
      = some (consoleCalls ++
          [Ev.openBtrm, Ev.readControllerBDAddr 3,
           Ev.WHBLogPrintf "Local BDA is: %02x:%02x:%02x:%02x:%02x:%02x"
             [0x11, 0x22, 0x33, 0x44, 0x55, 0x66],
           Ev.WHBLogPrintf "" [], Ev.WHBLogConsoleDraw,
           Ev.HIDSetup, Ev.HIDAddClient,
           Ev.WHBLogPrintf "Failed to add HID client" [], Ev.WHBLogConsoleDraw,
           Ev.sleep 2, Ev.VPADShutdown, Ev.KPADShutdown]) := by
  refine ⟨?_, ?_, ?_⟩ <;> decide

end PairMenu
